import Mathlib

/-!
Verification of the LTC4282 hot-swap controller driver
(`drivers/hwmon/ltc4282.c`): a shallow embedding of its fixed-point
conversion engine, write-side clamping, power-on polling loop, setup
(configuration) sequence and GPIO multiplexer, together with theorems
about the spec-level claims.

Machine arithmetic is modelled over `Nat` with explicit `% 2^64`
(`u64` multiplications) and `% 2^32` (`u32` products) where the C code
can wrap.  `DIV_ROUND_CLOSEST`/`DIV_ROUND_CLOSEST_ULL` on unsigned
values is `(x + d / 2) / d`.
-/

/-- `DIV_ROUND_CLOSEST` on unsigned values: round to nearest, halves up. -/
def divRoundClosest (x d : ℕ) : ℕ := (x + d / 2) / d

/-- `DIV_ROUND_CLOSEST_ULL` where the bias addition `x + d/2` happens in a
64-bit register and may wrap. -/
def divRoundClosestU64 (x d : ℕ) : ℕ := ((x + d / 2) % 2 ^ 64) / d

/-- 64-bit multiplication (wraps modulo `2^64`). -/
def u64mul (a b : ℕ) : ℕ := a * b % 2 ^ 64

/-- Helper for `ffs`, structurally recursive on a fuel bound (`n` itself
is enough fuel since halving reaches 0 within `n` steps). -/
def ffsAux : ℕ → ℕ → ℕ
  | 0, _ => 0
  | f + 1, n =>
    if n = 0 then 0
    else if n % 2 = 1 then 1
    else ffsAux f (n / 2) + 1

/-- C `ffs` (find first set): 1-based index of the least significant set
bit, 0 for 0. -/
def ffs (n : ℕ) : ℕ := ffsAux n n

/-- `LTC4282_FIELD_PREP(m, v) = ((v) << (ffs(m) - 1)) & (m)` (also models
`FIELD_PREP` for the constant masks of this driver). -/
def ltc4282_field_prep (m v : ℕ) : ℕ := (v <<< (ffs m - 1)) &&& m

/-- `regmap_update_bits` on an 8-bit register: `(old & ~mask) | (val & mask)`. -/
def updateBits (old mask val : ℕ) : ℕ := (old &&& (255 ^^^ mask)) ||| (val &&& mask)

/-- Full-scale output voltage (mV) for each `vin_mode`
(`ltc4282_vfs_milli`). -/
def ltc4282_vfs_milli : List ℕ := [5540, 8320, 16640, 33280]

/-! ## Conversion engine (read side) -/

/-- Word-width code-to-voltage conversion of `ltc4282_read_voltage_word`:
`DIV_ROUND_CLOSEST_ULL(code * (u64)fs, U16_MAX)`.  `code` is a 16-bit
register value and `fs` a `u32`, so the 64-bit product never wraps. -/
def ltc4282_read_voltage_word (code fs : ℕ) : ℕ :=
  divRoundClosest (code * fs) 65535

/-- Byte-width code-to-voltage conversion of `ltc4282_read_voltage_byte`:
`DIV_ROUND_CLOSEST(code * fs, U8_MAX)` for a byte-register value. -/
def ltc4282_read_voltage_byte (code fs : ℕ) : ℕ :=
  divRoundClosest (code * fs) 255

/-- The initial `temp` of `ltc4282_read_power_word`:
`DECA * 40 * st->vfs_out * (1 << 16)`. -/
def powerWordTemp (vfs : ℕ) : ℕ := 10 * 40 * vfs * 65536

/-- The value left in `temp` by
`check_mul_overflow(le16_to_cpu(power) * temp, MICRO, &temp)`:
the builtin always stores the (wrapped) product into `temp`. -/
def powerWordTempClobbered (power vfs : ℕ) : ℕ :=
  u64mul (u64mul power (powerWordTemp vfs)) 1000000

/-- Fast path of `ltc4282_read_power_word` as coded:
`DIV_ROUND_CLOSEST_ULL(le16_to_cpu(power) * temp * MICRO,
st->rsense * int_pow(U16_MAX, 2))` where `temp` has already been
clobbered by the overflow check. -/
def ltc4282_power_word_fast (power vfs rsense : ℕ) : ℕ :=
  divRoundClosestU64 (u64mul (u64mul power (powerWordTempClobbered power vfs)) 1000000)
    (rsense * 65535 ^ 2)

/-- Fallback path of `ltc4282_read_power_word` as coded:
`temp = DIV_ROUND_CLOSEST_ULL(le16_to_cpu(power) * temp, U16_MAX);`
`*val = DIV_ROUND_CLOSEST_ULL(temp * MICRO, U16_MAX * st->rsense)`,
again on the clobbered `temp`; the divisor `U16_MAX * st->rsense` is a
32-bit product. -/
def ltc4282_power_word_fallback (power vfs rsense : ℕ) : ℕ :=
  let t := divRoundClosestU64 (u64mul power (powerWordTempClobbered power vfs)) 65535
  divRoundClosestU64 (u64mul t 1000000) (65535 * rsense % 2 ^ 32)

/-- `ltc4282_read_power_word`: attempts the full-precision multiply first
(the `check_mul_overflow` condition) and falls back on overflow. -/
def ltc4282_read_power_word (power vfs rsense : ℕ) : ℕ :=
  if 2 ^ 64 ≤ u64mul power (powerWordTemp vfs) * 1000000 then
    ltc4282_power_word_fallback power vfs rsense
  else
    ltc4282_power_word_fast power vfs rsense

/-- Full-precision power path as the spec documents it (the overflow-check
product is kept apart from `temp`, as in
`P = code * 0.040 * Vfs * 2^16 / ((2^16-1)^2 * Rsense)` scaled to
microwatt): `round(code * (400 * Vfs * 2^16) * 10^6 / (Rsense * 65535^2))`. -/
def powerWordFastSpec (power vfs rsense : ℕ) : ℕ :=
  divRoundClosest (power * powerWordTemp vfs * 1000000) (rsense * 65535 ^ 2)

/-- Pre-division fallback power path as the spec documents it: divide the
constant factor by `65535` first, then multiply:
`round(round(code * (400 * Vfs * 2^16) / 65535) * 10^6 / (65535 * Rsense))`. -/
def powerWordFallbackSpec (power vfs rsense : ℕ) : ℕ :=
  divRoundClosest (divRoundClosest (power * powerWordTemp vfs) 65535 * 1000000)
    (65535 * rsense)

/-- `ltc4282_read_power_byte`:
`temp = power * 40 * DECA * st->vfs_out * 256;`
`*val = DIV_ROUND_CLOSEST_ULL(temp * MICRO, int_pow(U8_MAX, 2) * st->rsense)`.
For a byte code the 64-bit products cannot wrap. -/
def ltc4282_read_power_byte (power vfs rsense : ℕ) : ℕ :=
  divRoundClosestU64 (power * 40 * 10 * vfs * 256 * 1000000) (255 ^ 2 * rsense)

/-- The constant factor of `ltc4282_read_energy`:
`DECA * st->vfs_out * 40 * 256`. -/
def energyFactor (vfs : ℕ) : ℕ := 10 * vfs * 40 * 256

/-- Fast path of `ltc4282_read_energy`:
`DIV_ROUND_CLOSEST_ULL(DECA * st->vfs_out * 40 * 256 * le64_to_cpu(energy),
U16_MAX * st->rsense)`; the divisor is a 32-bit product and the numerator a
64-bit product. -/
def ltc4282_energy_fast (vfs energy rsense : ℕ) : ℕ :=
  divRoundClosestU64 (u64mul (energyFactor vfs) energy) (65535 * rsense % 2 ^ 32)

/-- Fallback path of `ltc4282_read_energy`:
`temp = DIV_ROUND_CLOSEST(DECA * st->vfs_out * 40 * 256, U16_MAX);`
`*val = DIV_ROUND_CLOSEST_ULL(temp * le64_to_cpu(energy), st->rsense)`. -/
def ltc4282_energy_fallback (vfs energy rsense : ℕ) : ℕ :=
  divRoundClosestU64 (u64mul (divRoundClosest (energyFactor vfs) 65535) energy) rsense

/-- `ltc4282_read_energy` for a 48-bit energy code. -/
def ltc4282_read_energy (vfs energy rsense : ℕ) : ℕ :=
  if 2 ^ 64 ≤ energyFactor vfs * energy then
    ltc4282_energy_fallback vfs energy rsense
  else
    ltc4282_energy_fast vfs energy rsense

/-- `ltc4282_read_power_average` given the energy value (microjoule, as
produced by `ltc4282_read_energy`) and the 32-bit elapsed-time counter:
zero counter short-circuits to 0; otherwise the energy is scaled by
`MICRO` with an overflow check, the fast divisor being the 32-bit product
`LTC4282_TCONV_US * count`. -/
def ltc4282_read_power_average (energy count : ℕ) : ℕ :=
  if count = 0 then 0
  else if 2 ^ 64 ≤ energy * 1000000 then
    let t := divRoundClosestU64 energy 65535
    divRoundClosestU64 (u64mul t 1000000) count
  else
    divRoundClosestU64 (u64mul energy 1000000) (65535 * count % 2 ^ 32)

/-! ## Write (inverse) conversions -/

/-- `ltc4282_write_voltage_byte` as coded: for `val >= fs` the register is
written with `U8_MAX`; otherwise the statement
`DIV_ROUND_CLOSEST(val * U8_MAX, fs);` computes a value that is never
stored, so the register is written with whatever the uninitialized `in`
holds (modelled by the `uninit` parameter). -/
def ltc4282_write_voltage_byte (uninit fs : ℕ) (val : ℤ) : ℕ :=
  if (fs : ℤ) ≤ val then 255 else uninit

/-- The write conversion the spec intends for `ltc4282_write_voltage_byte`
(spec 4.1/9.x: write the computed clamped value). -/
def writeVoltageByteSpec (fs : ℕ) (val : ℕ) : ℕ :=
  if fs ≤ val then 255 else divRoundClosest (val * 255) fs

/-- `ltc4282_write_power_byte`:
`temp = val * int_pow(U8_MAX, 2) * st->rsense;`
`power = DIV_ROUND_CLOSEST_ULL(temp, MICRO * DECA * 256 * st->vfs_out * 40);`
clamped to `U8_MAX` before the register write. -/
def ltc4282_write_power_byte (vfs rsense val : ℕ) : ℕ :=
  let temp := val * 255 ^ 2 * rsense % 2 ^ 64
  let power := divRoundClosestU64 temp (1000000 * 10 * 256 * vfs * 40)
  if 255 < power then 255 else power

/-! ## GPIO multiplexer -/

/-- The four physical pins of the `ltc4282_gpios` table. -/
inductive LtcGpioPin
  | gpio1
  | gpio2
  | gpio3
  | alert
deriving DecidableEq, Repr

/-- `active_high` column of `ltc4282_gpios` (only GPIO1 is active-high). -/
def gpioActiveHigh : LtcGpioPin → Bool
  | .gpio1 => true
  | _ => false

/-- `out_reg` column: `LTC4282_GPIO_CONFIG` (0x07) for the GPIOs,
`LTC4282_ALERT_CTRL` (0x1c) for ALERT. -/
def gpioOutReg : LtcGpioPin → ℕ
  | .alert => 28
  | _ => 7

/-- `out_mask` column: `BIT(3)`, `BIT(6)`, `BIT(7)`, `BIT(6)`. -/
def gpioOutMask : LtcGpioPin → ℕ
  | .gpio1 => 8
  | .gpio2 => 64
  | .gpio3 => 128
  | .alert => 64

/-- Bit index of the (single-bit) `out_mask`. -/
def gpioOutBit : LtcGpioPin → ℕ
  | .gpio1 => 3
  | .gpio2 => 6
  | .gpio3 => 7
  | .alert => 6

/-- `in_reg` column: `LTC4282_STATUS_MSB` (0x1f) for every pin. -/
def gpioInReg : LtcGpioPin → ℕ := fun _ => 31

/-- `in_mask` column: `BIT(5)`, `BIT(6)`, `BIT(7)`, `BIT(4)`. -/
def gpioInMask : LtcGpioPin → ℕ
  | .gpio1 => 32
  | .gpio2 => 64
  | .gpio3 => 128
  | .alert => 16

/-- Bit index of the (single-bit) `in_mask`. -/
def gpioInBit : LtcGpioPin → ℕ
  | .gpio1 => 5
  | .gpio2 => 6
  | .gpio3 => 7
  | .alert => 4

/-- `ltc4282_gpio_set` over a register file (address-indexed bytes):
the requested level is inverted for active-low pins, then
`regmap_update_bits(map, out_reg, out_mask, LTC4282_FIELD_PREP(out_mask, val))`. -/
def ltc4282_gpio_set (regs : ℕ → ℕ) (pin : LtcGpioPin) (val : Bool) : ℕ → ℕ :=
  let v := if gpioActiveHigh pin then val else !val
  fun a =>
    if a = gpioOutReg pin then
      updateBits (regs a) (gpioOutMask pin)
        (ltc4282_field_prep (gpioOutMask pin) (if v then 1 else 0))
    else regs a

/-- `ltc4282_gpio_get`: reads `in_reg` and returns `!!(val & in_mask)`
with no polarity handling. -/
def ltc4282_gpio_get (regs : ℕ → ℕ) (pin : LtcGpioPin) : Bool :=
  regs (gpioInReg pin) &&& gpioInMask pin != 0

/-! ## Register file and configuration for the setup sequence -/

/-- The byte registers written by `ltc428_clks_setup`/`ltc4282_setup`:
`CTRL_LSB` (0x00), `CTRL_MSB` (0x01), `FET_BAD_FAULT_TIMEOUT` (0x06),
`GPIO_CONFIG` (0x07), `CLK_DIV` (0x10), `ILIM_ADJUST` (0x11),
`ALERT_CTRL` (0x1c). -/
structure LtcRegs where
  ctrl_lsb : ℕ
  ctrl_msb : ℕ
  fet_bad_timeout : ℕ
  gpio_config : ℕ
  clk_div : ℕ
  ilim_adjust : ℕ
  alert_ctrl : ℕ
deriving DecidableEq, Repr

/-- The device-tree style configuration consumed by `ltc4282_setup`:
`none` means the property is absent (leave the chip default). -/
structure LtcConfig where
  rsense_nano : Option ℕ
  vin_mode_microvolt : Option ℕ
  current_limit_microvolt : Option ℕ
  vin_monitor : Bool
  overvoltage_dividers : Option ℕ
  undervoltage_dividers : Option ℕ
  on_delay : Bool
  on_active_low : Bool
  overcurrent_retry : Bool
  fet_bad_timeout_ms : Option ℕ
  gpio1_mode : Option ℕ
  gpio2_mode : Option ℕ
  gpio3_mode : Option ℕ
  alert_as_gp : Bool
deriving DecidableEq, Repr

/-- Configuration with every property absent. -/
def emptyConfig : LtcConfig :=
  ⟨none, none, none, false, none, none, false, false, false, none, none, none, none, false⟩

/-- The mutable driver state threaded through `ltc4282_setup`, together
with the register file.  `adcAssigns` counts how many times the
ADC-monitor branch of `ltc4282_non_gpio_setup` ran, `ngpios` how many
pins were collected into the plain-GPIO map. -/
structure SetupSt where
  regs : LtcRegs
  rsense : ℕ
  vin_mode : ℕ
  vfs_out : ℕ
  vdd_monitor : Bool
  adcAssigns : ℕ
  ngpios : ℕ
deriving DecidableEq, Repr

/-- Short-circuiting sequencing of setup steps: a step only runs when the
previous ones returned status 0. -/
def andThen (r : ℤ × SetupSt) (f : SetupSt → ℤ × SetupSt) : ℤ × SetupSt :=
  if r.1 = 0 then f r.2 else r

/-- The `vin-mode-microvolt` switch of `ltc4282_setup`: the four accepted
values and their `vin_mode` enumerators. -/
def vinModeCode (v : ℕ) : Option ℕ :=
  if v = 3300000 then some 0
  else if v = 5000000 then some 1
  else if v = 12000000 then some 2
  else if v = 24000000 then some 3
  else none

/-- The `adi,current-limit-microvolt` switch: the eight accepted
microvolt thresholds and their `ILIM_ADJUST` codes. -/
def ilimCode (v : ℕ) : Option ℕ :=
  if v = 12500 then some 0
  else if v = 15625 then some 1
  else if v = 18750 then some 2
  else if v = 21875 then some 3
  else if v = 25000 then some 4
  else if v = 28125 then some 5
  else if v = 31250 then some 6
  else if v = 34375 then some 7
  else none

/-- `n_funcs` per pin index (0 = GPIO1, 1 = GPIO2, 2 = GPIO3). -/
def gpioNFuncs : ℕ → ℕ
  | 0 => 3
  | 1 => 3
  | _ => 2

/-- `ltc4282_non_gpio_setup`: GPIO1 gets its power-good/power-bad
configuration; `LTC4282_PIN_FET_STRESS` (3) sets the FET-stress bit; any
other function on GPIO2/GPIO3 requests the ADC monitor, which is refused
with `-EINVAL` when `adc_in` is already taken.  Returns
(status, registers, adc_in, number of ADC assignments performed). -/
def ltc4282_non_gpio_setup (regs : LtcRegs) (pin func : ℕ) (adc_in : Bool) :
    ℤ × LtcRegs × Bool × ℕ :=
  if pin = 0 then
    let v := if func = 2 then 0 else 1
    (0, { regs with gpio_config := updateBits regs.gpio_config 48 (ltc4282_field_prep 48 v) },
      adc_in, 0)
  else if func = 3 then
    (0, { regs with gpio_config := updateBits regs.gpio_config 2 (ltc4282_field_prep 2 1) },
      adc_in, 0)
  else if adc_in then
    (-22, regs, adc_in, 0)
  else
    let ia := updateBits regs.ilim_adjust 2 (ltc4282_field_prep 2 (if pin = 1 then 1 else 0))
    (0, { regs with ilim_adjust := ia }, true, 1)

/-- Result of the pin loop of `ltc4282_gpio_setup`.  `earlyReturn` marks
the two in-loop `return` statements (invalid function — which returns the
stale status 0 — and a failed `ltc4282_non_gpio_setup`). -/
structure GpioLoopOut where
  earlyReturn : Bool
  status : ℤ
  regs : LtcRegs
  adc_in : Bool
  adcAssigns : ℕ
  ngpios : ℕ
deriving DecidableEq, Repr

/-- The `for (gpio = 0; gpio <= LTC4282_GPIO_3; gpio++)` loop of
`ltc4282_gpio_setup` over (pin index, configured function) pairs. -/
def ltc4282_gpio_loop (regs : LtcRegs) (adc_in : Bool) (assigns ngpios : ℕ) :
    List (ℕ × Option ℕ) → GpioLoopOut
  | [] => ⟨false, 0, regs, adc_in, assigns, ngpios⟩
  | (_, none) :: rest => ltc4282_gpio_loop regs adc_in assigns ngpios rest
  | (pin, some func) :: rest =>
    if gpioNFuncs pin ≤ func then
      ⟨true, 0, regs, adc_in, assigns, ngpios⟩
    else if func = 0 then
      let regs' := if pin = 0 then
          { regs with gpio_config := updateBits regs.gpio_config 48 48 }
        else regs
      ltc4282_gpio_loop regs' adc_in assigns (ngpios + 1) rest
    else
      match ltc4282_non_gpio_setup regs pin func adc_in with
      | (st, regs', adc', d) =>
        if st = 0 then ltc4282_gpio_loop regs' adc' (assigns + d) ngpios rest
        else ⟨true, st, regs', adc', assigns + d, ngpios⟩

/-- `ltc4282_gpio_setup` as a setup step: runs the pin loop over the three
`adi,gpioN-mode` properties, then (only when the loop completed) collects
the ALERT pin when `adi,alert-as-gp` is set. -/
def stepGpio (cfg : LtcConfig) (s : SetupSt) : ℤ × SetupSt :=
  match ltc4282_gpio_loop s.regs false 0 0
      [(0, cfg.gpio1_mode), (1, cfg.gpio2_mode), (2, cfg.gpio3_mode)] with
  | ⟨early, st, regs', _, assigns, ngpios⟩ =>
    if early then
      (st, { s with regs := regs', adcAssigns := s.adcAssigns + assigns, ngpios := ngpios })
    else
      let ngpios' := if cfg.alert_as_gp then ngpios + 1 else ngpios
      (0, { s with regs := regs', adcAssigns := s.adcAssigns + assigns, ngpios := ngpios' })

/-- Required `adi,rsense-nano-ohms` property; the driver divides it by
`CENTI` to get tenths of micro-ohm. -/
def stepRsense (cfg : LtcConfig) (s : SetupSt) : ℤ × SetupSt :=
  match cfg.rsense_nano with
  | none => (-22, s)
  | some r => (0, { s with rsense := r / 100 })

/-- Optional `vin-mode-microvolt`: validated against the four classes,
then mirrored into the `CTRL_MSB` vin-mode field and the `ILIM_ADJUST`
foldback field. -/
def stepVinMode (cfg : LtcConfig) (s : SetupSt) : ℤ × SetupSt :=
  match cfg.vin_mode_microvolt with
  | none => (0, s)
  | some v =>
    match vinModeCode v with
    | none => (-22, s)
    | some m =>
      let regs₁ := { s.regs with ctrl_msb := updateBits s.regs.ctrl_msb 3 (ltc4282_field_prep 3 m) }
      let regs₂ := { regs₁ with ilim_adjust := updateBits regs₁.ilim_adjust 24 (ltc4282_field_prep 24 m) }
      (0, { s with vin_mode := m, regs := regs₂ })

/-- `st->vfs_out = ltc4282_vfs_milli[st->vin_mode]`. -/
def stepVfs (s : SetupSt) : ℤ × SetupSt :=
  (0, { s with vfs_out := ltc4282_vfs_milli.getD s.vin_mode 0 })

/-- Optional `adi,current-limit-microvolt`: validated against the eight
thresholds, then written to the `ILIM_ADJUST` field. -/
def stepIlim (cfg : LtcConfig) (s : SetupSt) : ℤ × SetupSt :=
  match cfg.current_limit_microvolt with
  | none => (0, s)
  | some v =>
    match ilimCode v with
    | none => (-22, s)
    | some c =>
      let ia := updateBits s.regs.ilim_adjust 224 (ltc4282_field_prep 224 c)
      (0, { s with regs := { s.regs with ilim_adjust := ia } })

/-- `adi,vin_monitor`: clears the VDD-monitor bit of `ILIM_ADJUST`. -/
def stepVddMonitor (cfg : LtcConfig) (s : SetupSt) : ℤ × SetupSt :=
  if cfg.vin_monitor then
    let regs' := { s.regs with ilim_adjust := updateBits s.regs.ilim_adjust 4 0 }
    (0, { s with vdd_monitor := true, regs := regs' })
  else (0, s)

/-- Optional `adi,overvoltage-dividers` (4 enumerators). -/
def stepOv (cfg : LtcConfig) (s : SetupSt) : ℤ × SetupSt :=
  match cfg.overvoltage_dividers with
  | none => (0, s)
  | some v =>
    if 3 < v then (-22, s)
    else
      let cm := updateBits s.regs.ctrl_msb 12 (ltc4282_field_prep 12 v)
      (0, { s with regs := { s.regs with ctrl_msb := cm } })

/-- Optional `adi,undervoltage-dividers` (4 enumerators). -/
def stepUv (cfg : LtcConfig) (s : SetupSt) : ℤ × SetupSt :=
  match cfg.undervoltage_dividers with
  | none => (0, s)
  | some v =>
    if 3 < v then (-22, s)
    else
      let cm := updateBits s.regs.ctrl_msb 48 (ltc4282_field_prep 48 v)
      (0, { s with regs := { s.regs with ctrl_msb := cm } })

/-- `adi,on-delay`: sets `CTRL_LSB` bit 6. -/
def stepOnDelay (cfg : LtcConfig) (s : SetupSt) : ℤ × SetupSt :=
  if cfg.on_delay then
    (0, { s with regs := { s.regs with ctrl_lsb := updateBits s.regs.ctrl_lsb 64 64 } })
  else (0, s)

/-- `adi,on-active-low`: clears `CTRL_LSB` bit 5. -/
def stepActiveLow (cfg : LtcConfig) (s : SetupSt) : ℤ × SetupSt :=
  if cfg.on_active_low then
    (0, { s with regs := { s.regs with ctrl_lsb := updateBits s.regs.ctrl_lsb 32 0 } })
  else (0, s)

/-- `adi,overcurrent-retry`: clears `CTRL_LSB` bit 2. -/
def stepOcRetry (cfg : LtcConfig) (s : SetupSt) : ℤ × SetupSt :=
  if cfg.overcurrent_retry then
    (0, { s with regs := { s.regs with ctrl_lsb := updateBits s.regs.ctrl_lsb 4 0 } })
  else (0, s)

/-- Optional `adi,fet-bad-timeout-ms`: validated against 255 and written
as a whole byte. -/
def stepFetTimeout (cfg : LtcConfig) (s : SetupSt) : ℤ × SetupSt :=
  match cfg.fet_bad_timeout_ms with
  | none => (0, s)
  | some v =>
    if 255 < v then (-22, s)
    else (0, { s with regs := { s.regs with fet_bad_timeout := v } })

/-- `ltc4282_setup`: the one-shot configuration sequence, in source
order, short-circuiting on the first failing step.  `vin_mode` starts at
`LTC4282_VIN_12V` (2). -/
def ltc4282_setup (cfg : LtcConfig) (regs0 : LtcRegs) : ℤ × SetupSt :=
  andThen (stepRsense cfg ⟨regs0, 0, 2, 0, false, 0, 0⟩) fun s =>
  andThen (stepVinMode cfg s) fun s =>
  andThen (stepVfs s) fun s =>
  andThen (stepIlim cfg s) fun s =>
  andThen (stepVddMonitor cfg s) fun s =>
  andThen (stepOv cfg s) fun s =>
  andThen (stepUv cfg s) fun s =>
  andThen (stepOnDelay cfg s) fun s =>
  andThen (stepActiveLow cfg s) fun s =>
  andThen (stepOcRetry cfg s) fun s =>
  andThen (stepFetTimeout cfg s) fun s =>
  stepGpio cfg s

/-! ## Power-on polling loop -/

/-- Outcome of one `regmap_read_poll_timeout` call in
`ltc4282_power_on`: `met` when the OV/UV status bits were seen set (the
poll returns 0, VDD not yet stable), `timedOut` when the bits stayed
clear for the whole 50 ms window (`-ETIMEDOUT`, which the driver treats
as "stable"), or a bus error. -/
inductive PollRes
  | met
  | timedOut
  | err (e : ℤ)
deriving DecidableEq, Repr

/-- The `do { ... } while (n_tries--)` loop of `ltc4282_power_on`
followed by the `if (!n_tries)` check, with `n_tries` a `u32` (so the
final post-decrement of 0 wraps to a nonzero value).  `polls i` is the
outcome of the `i`-th poll; the result is (status, number of polls
performed). -/
def ltc4282_power_on_loop (polls : ℕ → PollRes) : ℕ → ℕ → ℤ × ℕ
  | i, 0 =>
    match polls i with
    | .err e => (e, i + 1)
    | .timedOut => (-110, i + 1)
    | .met => (0, i + 1)
  | i, t + 1 =>
    match polls i with
    | .err e => (e, i + 1)
    | .timedOut => (0, i + 1)
    | .met => ltc4282_power_on_loop polls (i + 1) t

/-- `ltc4282_power_on` starts with `n_tries = 5`. -/
def ltc4282_power_on (polls : ℕ → PollRes) : ℤ × ℕ :=
  ltc4282_power_on_loop polls 0 5

/-! ## read_in threshold attributes -/

/-- The four voltage channels, in the order of the channel enum
(`LTC4282_CHAN_VSOURCE`, `VGPIO`, `VFET`, `VDD`). -/
inductive LtcChannel
  | vsource
  | vgpio
  | vfet
  | vdd
deriving DecidableEq, Repr

/-- `ltc4282_read_in` for `hwmon_in_max`: the VSOURCE channel reads
`LTC4282_VSOURCE_MAX` (0x0b) at `vfs_out`, every other channel reads
`LTC4282_VGPIO_MAX` (0x09) at full scale 1280. -/
def ltc4282_read_in_max (vfs : ℕ) (regs : ℕ → ℕ) (ch : LtcChannel) : ℕ :=
  match ch with
  | .vsource => ltc4282_read_voltage_byte (regs 11) vfs
  | _ => ltc4282_read_voltage_byte (regs 9) 1280

/-- `ltc4282_read_in` for `hwmon_in_min` as coded: the VSOURCE branch
reads `LTC4282_VSOURCE_MAX` (0x0b) and the other branch
`LTC4282_VGPIO_MAX` (0x09) — the MAX registers, not the MIN ones. -/
def ltc4282_read_in_min (vfs : ℕ) (regs : ℕ → ℕ) (ch : LtcChannel) : ℕ :=
  match ch with
  | .vsource => ltc4282_read_voltage_byte (regs 11) vfs
  | _ => ltc4282_read_voltage_byte (regs 9) 1280

/-! ## Rounding arithmetic -/

/-- Two-sided bracket for round-to-nearest division:
`|2 * d * divRoundClosest x d - 2 * x| ≤ d`. -/
theorem divRoundClosest_bounds (x d : ℕ) (hd : 0 < d) :
    2 * (d * divRoundClosest x d) ≤ 2 * x + d ∧
      2 * x ≤ 2 * (d * divRoundClosest x d) + d := by
  have h1 := Nat.div_add_mod (x + d / 2) d
  have h2 : (x + d / 2) % d < d := Nat.mod_lt _ hd
  unfold divRoundClosest
  generalize hq : d * ((x + d / 2) / d) = w at h1 ⊢
  generalize hr : (x + d / 2) % d = r at h1 h2
  omega

/-- `divRoundClosest` is monotone in the dividend. -/
theorem divRoundClosest_le_divRoundClosest (x y d : ℕ) (h : x ≤ y) :
    divRoundClosest x d ≤ divRoundClosest y d :=
  Nat.div_le_div_right (Nat.add_le_add_right h _)

/-- When the biased numerator fits in 64 bits, `DIV_ROUND_CLOSEST_ULL`
is exact rounding. -/
theorem divRoundClosestU64_eq (x d : ℕ) (h : x + d / 2 < 2 ^ 64) :
    divRoundClosestU64 x d = divRoundClosest x d := by
  unfold divRoundClosestU64 divRoundClosest
  rw [Nat.mod_eq_of_lt h]

/-- Pre-dividing the numerator by 65535 before the `MICRO` scaling (the
power-word fallback ordering) changes the rounded result by at most 1
provided the sense resistance is at least 8. -/
theorem roundDiv_predivide_close_power (N R : ℕ) (hR : 8 ≤ R) :
    divRoundClosest (N * 1000000) (R * 65535 ^ 2) ≤
      divRoundClosest (divRoundClosest N 65535 * 1000000) (65535 * R) + 1 ∧
    divRoundClosest (divRoundClosest N 65535 * 1000000) (65535 * R) ≤
      divRoundClosest (N * 1000000) (R * 65535 ^ 2) + 1 := by
  obtain ⟨a1, a2⟩ := divRoundClosest_bounds (N * 1000000) (R * 65535 ^ 2)
    (by positivity)
  obtain ⟨b1, b2⟩ := divRoundClosest_bounds N 65535 (by norm_num)
  obtain ⟨c1, c2⟩ := divRoundClosest_bounds (divRoundClosest N 65535 * 1000000)
    (65535 * R) (by positivity)
  set q := divRoundClosest N 65535 with hqdef
  set v1 := divRoundClosest (N * 1000000) (R * 65535 ^ 2) with hv1def
  set v2 := divRoundClosest (q * 1000000) (65535 * R) with hv2def
  constructor
  · by_contra hcon
    push_neg at hcon
    have key : R * (v2 + 2) ≤ R * v1 := Nat.mul_le_mul_left R (by omega)
    nlinarith [a1, b2, c2, key, hR]
  · by_contra hcon
    push_neg at hcon
    have key : R * (v1 + 2) ≤ R * v2 := Nat.mul_le_mul_left R (by omega)
    nlinarith [a2, b1, c1, key, hR]

/-- Pre-dividing the constant energy factor by 65535 before multiplying
by the energy code (the energy fallback ordering) changes the rounded
result by at most 1 provided the energy code is below twice the sense
resistance. -/
theorem roundDiv_predivide_close_energy (C E R : ℕ) (hR : 0 < R) (hE : E < 2 * R) :
    divRoundClosest (C * E) (65535 * R) ≤
      divRoundClosest (divRoundClosest C 65535 * E) R + 1 ∧
    divRoundClosest (divRoundClosest C 65535 * E) R ≤
      divRoundClosest (C * E) (65535 * R) + 1 := by
  obtain ⟨a1, a2⟩ := divRoundClosest_bounds (C * E) (65535 * R) (by positivity)
  obtain ⟨b1, b2⟩ := divRoundClosest_bounds C 65535 (by norm_num)
  obtain ⟨c1, c2⟩ := divRoundClosest_bounds (divRoundClosest C 65535 * E) R hR
  set k := divRoundClosest C 65535 with hkdef
  set v1 := divRoundClosest (C * E) (65535 * R) with hv1def
  set v2 := divRoundClosest (k * E) R with hv2def
  have b1E := Nat.mul_le_mul_right E b1
  have b2E := Nat.mul_le_mul_right E b2
  constructor
  · by_contra hcon
    push_neg at hcon
    have key : R * (v2 + 2) ≤ R * v1 := Nat.mul_le_mul_left R (by omega)
    nlinarith [a1, b2E, c2, key, hE]
  · by_contra hcon
    push_neg at hcon
    have key : R * (v1 + 2) ≤ R * v2 := Nat.mul_le_mul_left R (by omega)
    nlinarith [a2, b1E, c1, key, hE]

/-! ## Claim theorems -/

/-- C1 (amended): for the power conversion, the full-precision path and
the pre-division fallback path — as the spec documents them, i.e. without
the `temp`-clobbering slip of `ltc4282_read_power_word` — agree to within
1 µW for every 16-bit code, full-scale class and sense resistance of at
least 8 whenever the fast-path multiplication fits in 64 bits; for the
energy conversion (whose code keeps the two paths intact) the paths agree
to within 1 µJ provided the energy code is below twice the sense
resistance and the sense resistance is at most 65537 (so that the 32-bit
divisor product `U16_MAX * rsense` does not wrap). -/
theorem ltc4282_two_path_conversion_bounds :
    (∀ power vfs rsense : ℕ, power ≤ 65535 → vfs ∈ ltc4282_vfs_milli → 8 ≤ rsense →
        power * powerWordTemp vfs * 1000000 < 2 ^ 64 →
        powerWordFastSpec power vfs rsense ≤ powerWordFallbackSpec power vfs rsense + 1 ∧
          powerWordFallbackSpec power vfs rsense ≤ powerWordFastSpec power vfs rsense + 1) ∧
    (∀ vfs energy rsense : ℕ, vfs ∈ ltc4282_vfs_milli → 0 < rsense → rsense ≤ 65537 →
        energy < 2 * rsense →
        ltc4282_energy_fast vfs energy rsense ≤ ltc4282_energy_fallback vfs energy rsense + 1 ∧
          ltc4282_energy_fallback vfs energy rsense ≤ ltc4282_energy_fast vfs energy rsense + 1) := by
  constructor
  · intro power vfs rsense _ _ hR _
    simp only [powerWordFastSpec, powerWordFallbackSpec]
    exact roundDiv_predivide_close_power (power * powerWordTemp vfs) rsense hR
  · intro vfs energy rsense hvfs hR hR2 hE
    have hvfs' : vfs ≤ 33280 := by
      simp only [ltc4282_vfs_milli, List.mem_cons, List.not_mem_nil, or_false] at hvfs
      omega
    have hCb : energyFactor vfs ≤ 3407872000 := by
      unfold energyFactor; omega
    have hEb : energy ≤ 131073 := by omega
    have hCE : energyFactor vfs * energy ≤ 3407872000 * 131073 :=
      Nat.mul_le_mul hCb hEb
    have hk : divRoundClosest (energyFactor vfs) 65535 ≤ 52001 := by
      have h1 : divRoundClosest (energyFactor vfs) 65535 ≤ divRoundClosest 3407872000 65535 :=
        divRoundClosest_le_divRoundClosest _ _ _ hCb
      have h2 : divRoundClosest 3407872000 65535 = 52001 := by decide
      omega
    have hkE : divRoundClosest (energyFactor vfs) 65535 * energy ≤ 52001 * 131073 :=
      Nat.mul_le_mul hk hEb
    have hdfit : 65535 * rsense < 2 ^ 32 := by omega
    have hfast : ltc4282_energy_fast vfs energy rsense =
        divRoundClosest (energyFactor vfs * energy) (65535 * rsense) := by
      unfold ltc4282_energy_fast
      rw [Nat.mod_eq_of_lt hdfit]
      have hm : u64mul (energyFactor vfs) energy = energyFactor vfs * energy := by
        unfold u64mul
        exact Nat.mod_eq_of_lt (by omega)
      rw [hm]
      exact divRoundClosestU64_eq _ _ (by omega)
    have hfb : ltc4282_energy_fallback vfs energy rsense =
        divRoundClosest (divRoundClosest (energyFactor vfs) 65535 * energy) rsense := by
      unfold ltc4282_energy_fallback
      have hm : u64mul (divRoundClosest (energyFactor vfs) 65535) energy =
          divRoundClosest (energyFactor vfs) 65535 * energy := by
        unfold u64mul
        exact Nat.mod_eq_of_lt (by omega)
      rw [hm]
      exact divRoundClosestU64_eq _ _ (by omega)
    rw [hfast, hfb]
    exact roundDiv_predivide_close_energy (energyFactor vfs) energy rsense hR hE

/-- C1 witness: both bounds instantiated at concrete inputs. -/
theorem ltc4282_two_path_conversion_bounds_witness :
    (powerWordFastSpec 1 5540 8 ≤ powerWordFallbackSpec 1 5540 8 + 1 ∧
      powerWordFallbackSpec 1 5540 8 ≤ powerWordFastSpec 1 5540 8 + 1) ∧
    (ltc4282_energy_fast 5540 3 2 ≤ ltc4282_energy_fallback 5540 3 2 + 1 ∧
      ltc4282_energy_fallback 5540 3 2 ≤ ltc4282_energy_fast 5540 3 2 + 1) :=
  ⟨ltc4282_two_path_conversion_bounds.1 1 5540 8 (by decide) (by decide) (by decide) (by decide),
   ltc4282_two_path_conversion_bounds.2 5540 3 2 (by decide) (by decide) (by decide) (by decide)⟩

/-- C1 counterexample: at power code 1, full scale 5540 mV, sense
resistance 2000 the fast-path multiplication does not overflow 64 bits,
yet the two paths of `ltc4282_read_power_word` as coded (both reading the
`temp` variable that `check_mul_overflow` overwrote with
`power * temp * MICRO`) differ by far more than 1 µW. -/
theorem ltc4282_power_word_paths_diverge :
    u64mul 1 (powerWordTemp 5540) * 1000000 < 2 ^ 64 ∧
    ltc4282_power_word_fast 1 5540 2000 = 1747058 ∧
    ltc4282_power_word_fallback 1 5540 2000 = 16907254246 ∧
    ltc4282_power_word_fast 1 5540 2000 + 1 < ltc4282_power_word_fallback 1 5540 2000 := by
  decide

/-- C2 counterexample: with `vin_mode = 12V` (full scale 16640 mV) and
sense resistance 2000, the byte-width power conversion of raw code 240
yields 3,144,518,570 µW — more than 100 times the claimed ≈6,289,000 µW. -/
theorem ltc4282_power_byte_12v_value :
    ltc4282_read_power_byte 240 16640 2000 = 3144518570 ∧
      6289000 * 100 < ltc4282_read_power_byte 240 16640 2000 := by
  decide

/-- C2 (amended): the literal regression case of the source comment uses
the 24V class (full scale 33280 mV): with sense resistance 2000, raw
power code 240 converts to 6,289,037,140 µW ≈ 6,289,000,000 µW. -/
theorem ltc4282_power_byte_regression_case :
    ltc4282_read_power_byte 240 33280 2000 = 6289037140 ∧
      6289000000 ≤ ltc4282_read_power_byte 240 33280 2000 ∧
      ltc4282_read_power_byte 240 33280 2000 ≤ 6290000000 := by
  decide

/-- C3: `ltc4282_write_voltage_byte` writes the register maximum 255 for
out-of-range requests, but in the in-range branch the computed rounded
code is discarded and whatever the uninitialized variable holds is
written instead (two different `uninit` values give two different
register writes), where the spec mandates `round(val * 255 / fs)` (20 for
val = 100, fs = 1280); the power-threshold write does clamp to 255. -/
theorem ltc4282_write_byte_eval :
    ltc4282_write_voltage_byte 7 1280 5000 = 255 ∧
    ltc4282_write_voltage_byte 7 1280 100 = 7 ∧
    ltc4282_write_voltage_byte 33 1280 100 = 33 ∧
    writeVoltageByteSpec 1280 100 = 20 ∧
    ltc4282_write_power_byte 33280 2000 (10 ^ 13) = 255 ∧
    ltc4282_write_power_byte 33280 2000 6289037140 = 240 := by
  decide

/-- C4 (amended): a zero elapsed-time counter yields exactly 0 (no
error); a nonzero counter yields `round(energy * 10^6 / (65535 * count))`
provided the scaled numerator (plus rounding bias) fits in 64 bits and
the 32-bit divisor product `LTC4282_TCONV_US * count` does not wrap. -/
theorem ltc4282_read_power_average_behavior :
    (∀ energy : ℕ, ltc4282_read_power_average energy 0 = 0) ∧
    (∀ energy count : ℕ, 0 < count → count ≤ 65537 → energy ≤ 18446744071562 →
        ltc4282_read_power_average energy count =
          divRoundClosest (energy * 1000000) (65535 * count)) := by
  constructor
  · intro energy; rfl
  · intro energy count h1 h2 h3
    unfold ltc4282_read_power_average
    rw [if_neg (by omega), if_neg (by omega)]
    have hm1 : u64mul energy 1000000 = energy * 1000000 := by
      unfold u64mul; exact Nat.mod_eq_of_lt (by omega)
    have hm2 : 65535 * count % 2 ^ 32 = 65535 * count := Nat.mod_eq_of_lt (by omega)
    rw [hm1, hm2]
    exact divRoundClosestU64_eq _ _ (by omega)

/-- C4 witness: both clauses at concrete inputs. -/
theorem ltc4282_read_power_average_behavior_witness :
    ltc4282_read_power_average 7 0 = 0 ∧
    ltc4282_read_power_average 7 3 = divRoundClosest (7 * 1000000) (65535 * 3) :=
  ⟨ltc4282_read_power_average_behavior.1 7,
   ltc4282_read_power_average_behavior.2 7 3 (by decide) (by decide) (by decide)⟩

/-- C4 counterexample: for energy 2·10^13 µJ (which overflows the
`energy * MICRO` multiplication) and counter 1, the code's fallback
result differs from `round(energy * 10^6 / (count * 65535))` by 66,072
units, so the "for every nonzero counter" rounding formula of the claim
does not hold on the code. -/
theorem ltc4282_read_power_average_fallback_inexact :
    ltc4282_read_power_average (2 * 10 ^ 13) 1 = 305180438000000 ∧
    divRoundClosest (2 * 10 ^ 13 * 1000000) (65535 * 1) = 305180437933928 ∧
    divRoundClosest (2 * 10 ^ 13 * 1000000) (65535 * 1) + 1 <
      ltc4282_read_power_average (2 * 10 ^ 13) 1 := by
  decide

/-- C5: evaluating `ltc4282_power_on` — a status register stable on the
3rd poll gives success after 3 polls, but a register that never reports
stable makes the `do..while(n_tries--)` loop poll 6 times and then return
0 (success!), because the post-decrement wraps `n_tries` from 0 to
`U32_MAX` and the `if (!n_tries)` test never fires on that path; the
claimed `-ETIMEDOUT` after exactly 5 attempts never happens. -/
theorem ltc4282_power_on_eval :
    ltc4282_power_on (fun i => if i < 2 then PollRes.met else PollRes.timedOut) = (0, 3) ∧
    ltc4282_power_on (fun _ => PollRes.met) = (0, 6) := by
  decide

/-- C9: the word-width code-to-voltage conversion is monotone
non-decreasing in the code for every full-scale class. -/
theorem ltc4282_code_to_voltage_mono :
    ∀ c1 c2 fs : ℕ, c1 ≤ c2 → c2 ≤ 65535 → fs ∈ ltc4282_vfs_milli →
      ltc4282_read_voltage_word c1 fs ≤ ltc4282_read_voltage_word c2 fs := by
  intro c1 c2 fs h _ _
  simp only [ltc4282_read_voltage_word]
  exact divRoundClosest_le_divRoundClosest _ _ _ (Nat.mul_le_mul_right fs h)

/-- C9 witness. -/
theorem ltc4282_code_to_voltage_mono_witness :
    ltc4282_read_voltage_word 3 16640 ≤ ltc4282_read_voltage_word 5 16640 :=
  ltc4282_code_to_voltage_mono 3 5 16640 (by decide) (by decide) (by decide)

/-- C10: for every fixed register state and every channel, the
`hwmon_in_min` read of `ltc4282_read_in` returns the same value as the
`hwmon_in_max` read, because both branches read the MAX register. -/
theorem ltc4282_in_min_equals_max :
    ∀ (vfs : ℕ) (regs : ℕ → ℕ) (ch : LtcChannel),
      ltc4282_read_in_min vfs regs ch = ltc4282_read_in_max vfs regs ch := by
  intro vfs regs ch
  cases ch <;> rfl


/-- Updating a masked field of a byte register sets exactly the value's
bits inside the mask. -/
theorem testBit_updateBits (a m v i : ℕ) (hi : i < 8) (hm : m.testBit i = true) :
    (updateBits a m v).testBit i = v.testBit i := by
  have h255 : (255 : ℕ).testBit i = true := by interval_cases i <;> decide
  unfold updateBits
  simp [Nat.testBit_lor, Nat.testBit_land, Nat.testBit_xor, hm, h255]

/-- Testing a single-bit mask of a register value. -/
theorem and_pow_two_bne (x k : ℕ) : (x &&& 2 ^ k != 0) = x.testBit k := by
  have h := Nat.and_two_pow x k
  cases hb : x.testBit k <;> rw [hb] at h <;> simp [h]

/-- C8 (amended): the value-set operation inverts the requested level for
the active-low pins (GPIO2, GPIO3, ALERT) and writes it unchanged for
GPIO1, while the value-get operation never inverts: for every pin it
returns the raw status-register bit. -/
theorem ltc4282_gpio_polarity :
    (∀ (regs : ℕ → ℕ) (pin : LtcGpioPin) (v : Bool),
        (ltc4282_gpio_set regs pin v (gpioOutReg pin)).testBit (gpioOutBit pin)
          = (if gpioActiveHigh pin then v else !v)) ∧
    (∀ (regs : ℕ → ℕ) (pin : LtcGpioPin),
        ltc4282_gpio_get regs pin = (regs (gpioInReg pin)).testBit (gpioInBit pin)) := by
  constructor
  · intro regs pin v
    cases pin <;> cases v <;>
      simp only [ltc4282_gpio_set, gpioOutReg, gpioOutMask, gpioOutBit, gpioActiveHigh,
        Bool.not_true, Bool.not_false, if_true, if_false, ite_true, ite_false] <;>
      rw [testBit_updateBits _ _ _ _ (by decide) (by decide)] <;> decide
  · intro regs pin
    cases pin
    · exact and_pow_two_bne (regs 31) 5
    · exact and_pow_two_bne (regs 31) 6
    · exact and_pow_two_bne (regs 31) 7
    · exact and_pow_two_bne (regs 31) 4

/-- C8 counterexample: on a register state whose GPIO2 status bit is set,
`ltc4282_gpio_get` returns the bit unchanged, not the inverted level the
claim predicts for the active-low GPIO2. -/
theorem ltc4282_gpio_get_not_inverted :
    ¬ (ltc4282_gpio_get (fun a => if a = 31 then 64 else 0) LtcGpioPin.gpio2
        = !(((fun a : ℕ => if a = 31 then (64 : ℕ) else 0) (gpioInReg LtcGpioPin.gpio2)).testBit
            (gpioInBit LtcGpioPin.gpio2))) := by
  decide

/-- One `ltc4282_non_gpio_setup` call can assign the ADC monitor at most
once, and only when `adc_in` was still free (potential argument). -/
theorem non_gpio_adc_bound (regs : LtcRegs) (pin func : ℕ) (adc : Bool) :
    (ltc4282_non_gpio_setup regs pin func adc).2.2.2 +
        (if (ltc4282_non_gpio_setup regs pin func adc).2.2.1 then 0 else 1) ≤
      (if adc then 0 else 1) := by
  unfold ltc4282_non_gpio_setup
  split_ifs with h1 h2 h3 <;> simp_all

/-- Loop invariant of the `ltc4282_gpio_setup` pin loop: the number of
ADC-monitor assignments it performs never exceeds the starting count plus
one free slot. -/
theorem gpio_loop_adc_bound :
    ∀ (l : List (ℕ × Option ℕ)) (regs : LtcRegs) (adc : Bool) (assigns ngpios : ℕ),
      (ltc4282_gpio_loop regs adc assigns ngpios l).adcAssigns ≤
        assigns + (if adc then 0 else 1) := by
  intro l
  induction l with
  | nil =>
    intro regs adc assigns n
    simp [ltc4282_gpio_loop]
  | cons hd tl ih =>
    intro regs adc assigns n
    obtain ⟨pin, opt⟩ := hd
    cases opt with
    | none => exact ih regs adc assigns n
    | some f =>
      simp only [ltc4282_gpio_loop]
      by_cases h1 : gpioNFuncs pin ≤ f
      · rw [if_pos h1]
        cases adc <;> simp
      · rw [if_neg h1]
        by_cases h2 : f = 0
        · rw [if_pos h2]
          exact ih _ adc assigns (n + 1)
        · rw [if_neg h2]
          rcases he : ltc4282_non_gpio_setup regs pin f adc with ⟨st, regs', adc', d⟩
          have hb := non_gpio_adc_bound regs pin f adc
          rw [he] at hb
          simp only at hb
          dsimp only
          by_cases h3 : st = 0
          · rw [if_pos h3]
            have hrest := ih regs' adc' (assigns + d) n
            cases adc <;> cases adc' <;> simp at hb hrest ⊢ <;> omega
          · rw [if_neg h3]
            cases adc <;> cases adc' <;> simp at hb ⊢ <;> omega

/-- `stepRsense` does not touch the ADC-assignment count. -/
theorem stepRsense_adc (cfg : LtcConfig) (s : SetupSt) :
    (stepRsense cfg s).2.adcAssigns = s.adcAssigns := by
  unfold stepRsense
  rcases cfg.rsense_nano with _ | r <;> rfl

/-- `stepVinMode` does not touch the ADC-assignment count. -/
theorem stepVinMode_adc (cfg : LtcConfig) (s : SetupSt) :
    (stepVinMode cfg s).2.adcAssigns = s.adcAssigns := by
  unfold stepVinMode
  rcases cfg.vin_mode_microvolt with _ | v
  · rfl
  · dsimp only
    rcases vinModeCode v with _ | m <;> rfl

/-- `stepVfs` does not touch the ADC-assignment count. -/
theorem stepVfs_adc (s : SetupSt) : (stepVfs s).2.adcAssigns = s.adcAssigns := rfl

/-- `stepIlim` does not touch the ADC-assignment count. -/
theorem stepIlim_adc (cfg : LtcConfig) (s : SetupSt) :
    (stepIlim cfg s).2.adcAssigns = s.adcAssigns := by
  unfold stepIlim
  rcases cfg.current_limit_microvolt with _ | v
  · rfl
  · dsimp only
    rcases ilimCode v with _ | c <;> rfl

/-- `stepVddMonitor` does not touch the ADC-assignment count. -/
theorem stepVddMonitor_adc (cfg : LtcConfig) (s : SetupSt) :
    (stepVddMonitor cfg s).2.adcAssigns = s.adcAssigns := by
  unfold stepVddMonitor
  split_ifs <;> rfl

/-- `stepOv` does not touch the ADC-assignment count. -/
theorem stepOv_adc (cfg : LtcConfig) (s : SetupSt) :
    (stepOv cfg s).2.adcAssigns = s.adcAssigns := by
  unfold stepOv
  rcases cfg.overvoltage_dividers with _ | v
  · rfl
  · dsimp only
    split_ifs <;> rfl

/-- `stepUv` does not touch the ADC-assignment count. -/
theorem stepUv_adc (cfg : LtcConfig) (s : SetupSt) :
    (stepUv cfg s).2.adcAssigns = s.adcAssigns := by
  unfold stepUv
  rcases cfg.undervoltage_dividers with _ | v
  · rfl
  · dsimp only
    split_ifs <;> rfl

/-- `stepOnDelay` does not touch the ADC-assignment count. -/
theorem stepOnDelay_adc (cfg : LtcConfig) (s : SetupSt) :
    (stepOnDelay cfg s).2.adcAssigns = s.adcAssigns := by
  unfold stepOnDelay
  split_ifs <;> rfl

/-- `stepActiveLow` does not touch the ADC-assignment count. -/
theorem stepActiveLow_adc (cfg : LtcConfig) (s : SetupSt) :
    (stepActiveLow cfg s).2.adcAssigns = s.adcAssigns := by
  unfold stepActiveLow
  split_ifs <;> rfl

/-- `stepOcRetry` does not touch the ADC-assignment count. -/
theorem stepOcRetry_adc (cfg : LtcConfig) (s : SetupSt) :
    (stepOcRetry cfg s).2.adcAssigns = s.adcAssigns := by
  unfold stepOcRetry
  split_ifs <;> rfl

/-- `stepFetTimeout` does not touch the ADC-assignment count. -/
theorem stepFetTimeout_adc (cfg : LtcConfig) (s : SetupSt) :
    (stepFetTimeout cfg s).2.adcAssigns = s.adcAssigns := by
  unfold stepFetTimeout
  rcases cfg.fet_bad_timeout_ms with _ | v
  · rfl
  · dsimp only
    split_ifs <;> rfl

/-- `stepGpio` adds at most one ADC-monitor assignment. -/
theorem stepGpio_adc (cfg : LtcConfig) (s : SetupSt) :
    (stepGpio cfg s).2.adcAssigns ≤ s.adcAssigns + 1 := by
  unfold stepGpio
  rcases he : ltc4282_gpio_loop s.regs false 0 0
      [(0, cfg.gpio1_mode), (1, cfg.gpio2_mode), (2, cfg.gpio3_mode)] with
    ⟨early, st, regs', adc', assigns, ngpios⟩
  have hl := gpio_loop_adc_bound [(0, cfg.gpio1_mode), (1, cfg.gpio2_mode), (2, cfg.gpio3_mode)]
    s.regs false 0 0
  rw [he] at hl
  simp at hl
  dsimp only
  split_ifs <;> simp <;> omega

/-- Sequencing preserves the at-most-one-assignment bound. -/
theorem andThen_adc_chain (r : ℤ × SetupSt) (f : SetupSt → ℤ × SetupSt)
    (hr : r.2.adcAssigns = 0)
    (hf : ∀ s, s.adcAssigns = 0 → (f s).2.adcAssigns ≤ 1) :
    (andThen r f).2.adcAssigns ≤ 1 := by
  unfold andThen
  split_ifs
  · exact hf _ hr
  · omega

/-- Configuration requesting the ADC monitor on both GPIO2 and GPIO3. -/
def adcTwiceConfig (r f2 f3 : ℕ) : LtcConfig :=
  { emptyConfig with rsense_nano := some r, gpio2_mode := some f2, gpio3_mode := some f3 }

/-- C7: across every configuration and initial register state, a whole
`ltc4282_setup` run assigns the ADC-monitor function at most once; and a
configuration requesting the ADC monitor on both GPIO2 (function 1 or 2)
and GPIO3 (function 1) is rejected with `-EINVAL`. -/
theorem ltc4282_adc_monitor_exclusive :
    (∀ (cfg : LtcConfig) (regs : LtcRegs), (ltc4282_setup cfg regs).2.adcAssigns ≤ 1) ∧
    (∀ (regs : LtcRegs) (r f2 f3 : ℕ), f2 = 1 ∨ f2 = 2 → f3 = 1 →
        (ltc4282_setup (adcTwiceConfig r f2 f3) regs).1 = -22) := by
  constructor
  · intro cfg regs
    unfold ltc4282_setup
    refine andThen_adc_chain _ _ (by rw [stepRsense_adc]) fun s1 h1 => ?_
    refine andThen_adc_chain _ _ (by rw [stepVinMode_adc]; exact h1) fun s2 h2 => ?_
    refine andThen_adc_chain _ _ (by rw [stepVfs_adc]; exact h2) fun s3 h3 => ?_
    refine andThen_adc_chain _ _ (by rw [stepIlim_adc]; exact h3) fun s4 h4 => ?_
    refine andThen_adc_chain _ _ (by rw [stepVddMonitor_adc]; exact h4) fun s5 h5 => ?_
    refine andThen_adc_chain _ _ (by rw [stepOv_adc]; exact h5) fun s6 h6 => ?_
    refine andThen_adc_chain _ _ (by rw [stepUv_adc]; exact h6) fun s7 h7 => ?_
    refine andThen_adc_chain _ _ (by rw [stepOnDelay_adc]; exact h7) fun s8 h8 => ?_
    refine andThen_adc_chain _ _ (by rw [stepActiveLow_adc]; exact h8) fun s9 h9 => ?_
    refine andThen_adc_chain _ _ (by rw [stepOcRetry_adc]; exact h9) fun s10 h10 => ?_
    refine andThen_adc_chain _ _ (by rw [stepFetTimeout_adc]; exact h10) fun s11 h11 => ?_
    have := stepGpio_adc cfg s11
    omega
  · intro regs r f2 f3 h2 h3
    subst h3
    rcases h2 with h | h <;> subst h <;> rfl

/-- C7 witness. -/
theorem ltc4282_adc_monitor_exclusive_witness :
    (ltc4282_setup emptyConfig ⟨0, 0, 0, 0, 0, 0, 0⟩).2.adcAssigns ≤ 1 ∧
    (ltc4282_setup (adcTwiceConfig 100000 2 1) ⟨0, 0, 0, 0, 0, 0, 0⟩).1 = -22 :=
  ⟨ltc4282_adc_monitor_exclusive.1 emptyConfig ⟨0, 0, 0, 0, 0, 0, 0⟩,
   ltc4282_adc_monitor_exclusive.2 ⟨0, 0, 0, 0, 0, 0, 0⟩ 100000 2 1 (Or.inr rfl) rfl⟩

/-- Configuration with an out-of-range `vin-mode-microvolt`. -/
def invalidVinConfig (r v : ℕ) : LtcConfig :=
  { emptyConfig with rsense_nano := some r, vin_mode_microvolt := some v }

/-- Configuration with a valid vin-mode (5 V) but an out-of-range current limit. -/
def invalidIlimConfig (r v : ℕ) : LtcConfig :=
  { emptyConfig with rsense_nano := some r, vin_mode_microvolt := some 5000000, current_limit_microvolt := some v }

/-- Configuration with an out-of-range overvoltage-divider value. -/
def invalidOvConfig (r v : ℕ) : LtcConfig :=
  { emptyConfig with rsense_nano := some r, overvoltage_dividers := some v }

/-- Configuration with an out-of-range undervoltage-divider value. -/
def invalidUvConfig (r v : ℕ) : LtcConfig :=
  { emptyConfig with rsense_nano := some r, undervoltage_dividers := some v }

/-- Configuration with an out-of-range fet-bad timeout. -/
def invalidFetConfig (r v : ℕ) : LtcConfig :=
  { emptyConfig with rsense_nano := some r, fet_bad_timeout_ms := some v }

/-- Configuration with an out-of-range GPIO1 function, plus `alert-as-gp`. -/
def invalidGpioConfig (r f : ℕ) : LtcConfig :=
  { emptyConfig with rsense_nano := some r, gpio1_mode := some f, alert_as_gp := true }

/-- The two register writes of a valid vin-mode step. -/
def vinModeWrites (regs : LtcRegs) (m : ℕ) : LtcRegs :=
  { regs with ctrl_msb := updateBits regs.ctrl_msb 3 (ltc4282_field_prep 3 m), ilim_adjust := updateBits regs.ilim_adjust 24 (ltc4282_field_prep 24 m) }

/-- C6 (amended): each out-of-range configuration value aborts
`ltc4282_setup` at its validation check — with `-EINVAL` for vin-mode,
current-limit, the two divider ratios and the fet-bad timeout, but with
status 0 for a GPIO function (the stale `ret` of the successful property
read is returned) — skipping every later step (for the GPIO case the
ALERT pin is no longer collected, `ngpios` stays 0); register writes
performed by earlier valid steps persist: an invalid current-limit after
a valid vin-mode leaves the vin-mode and foldback fields written. -/
theorem ltc4282_setup_validation :
    (∀ (regs : LtcRegs) (r v : ℕ), vinModeCode v = none →
        ltc4282_setup (invalidVinConfig r v) regs = (-22, ⟨regs, r / 100, 2, 0, false, 0, 0⟩)) ∧
    (∀ (regs : LtcRegs) (r v : ℕ), ilimCode v = none →
        ltc4282_setup (invalidIlimConfig r v) regs =
          (-22, ⟨vinModeWrites regs 1, r / 100, 1, 8320, false, 0, 0⟩)) ∧
    (∀ (regs : LtcRegs) (r v : ℕ), 3 < v →
        ltc4282_setup (invalidOvConfig r v) regs = (-22, ⟨regs, r / 100, 2, 16640, false, 0, 0⟩)) ∧
    (∀ (regs : LtcRegs) (r v : ℕ), 3 < v →
        ltc4282_setup (invalidUvConfig r v) regs = (-22, ⟨regs, r / 100, 2, 16640, false, 0, 0⟩)) ∧
    (∀ (regs : LtcRegs) (r v : ℕ), 255 < v →
        ltc4282_setup (invalidFetConfig r v) regs = (-22, ⟨regs, r / 100, 2, 16640, false, 0, 0⟩)) ∧
    (∀ (regs : LtcRegs) (r f : ℕ), 3 ≤ f →
        ltc4282_setup (invalidGpioConfig r f) regs = (0, ⟨regs, r / 100, 2, 16640, false, 0, 0⟩)) := by
  refine ⟨?_, ?_, ?_, ?_, ?_, ?_⟩
  · intro regs r v h
    simp [ltc4282_setup, andThen, invalidVinConfig, emptyConfig, stepRsense, stepVinMode, h]
  · intro regs r v h
    simp [ltc4282_setup, andThen, invalidIlimConfig, emptyConfig, stepRsense, stepVinMode,
      stepVfs, stepIlim, vinModeCode, ltc4282_vfs_milli, h, vinModeWrites]
  · intro regs r v h
    simp [ltc4282_setup, andThen, invalidOvConfig, emptyConfig, stepRsense, stepVinMode,
      stepVfs, stepIlim, stepVddMonitor, stepOv, ltc4282_vfs_milli, if_pos h, Nat.not_lt.2, h]
  · intro regs r v h
    simp [ltc4282_setup, andThen, invalidUvConfig, emptyConfig, stepRsense, stepVinMode,
      stepVfs, stepIlim, stepVddMonitor, stepOv, stepUv, ltc4282_vfs_milli, if_pos h, h]
  · intro regs r v h
    simp [ltc4282_setup, andThen, invalidFetConfig, emptyConfig, stepRsense, stepVinMode,
      stepVfs, stepIlim, stepVddMonitor, stepOv, stepUv, stepOnDelay, stepActiveLow,
      stepOcRetry, stepFetTimeout, ltc4282_vfs_milli, if_pos h, h]
  · intro regs r f h
    have hf : gpioNFuncs 0 ≤ f := h
    simp [ltc4282_setup, andThen, invalidGpioConfig, emptyConfig, stepRsense, stepVinMode,
      stepVfs, stepIlim, stepVddMonitor, stepOv, stepUv, stepOnDelay, stepActiveLow,
      stepOcRetry, stepFetTimeout, stepGpio, ltc4282_gpio_loop, ltc4282_vfs_milli, if_pos hf, hf]

/-- C6 witness: all six abort shapes at concrete inputs. -/
theorem ltc4282_setup_validation_witness :
    ltc4282_setup (invalidVinConfig 100000 7) ⟨0, 0, 0, 0, 0, 0, 0⟩ =
      (-22, ⟨⟨0, 0, 0, 0, 0, 0, 0⟩, 1000, 2, 0, false, 0, 0⟩) ∧
    ltc4282_setup (invalidIlimConfig 100000 1) ⟨0, 0, 0, 0, 0, 0, 0⟩ =
      (-22, ⟨vinModeWrites ⟨0, 0, 0, 0, 0, 0, 0⟩ 1, 1000, 1, 8320, false, 0, 0⟩) ∧
    ltc4282_setup (invalidOvConfig 100000 9) ⟨0, 0, 0, 0, 0, 0, 0⟩ =
      (-22, ⟨⟨0, 0, 0, 0, 0, 0, 0⟩, 1000, 2, 16640, false, 0, 0⟩) ∧
    ltc4282_setup (invalidUvConfig 100000 9) ⟨0, 0, 0, 0, 0, 0, 0⟩ =
      (-22, ⟨⟨0, 0, 0, 0, 0, 0, 0⟩, 1000, 2, 16640, false, 0, 0⟩) ∧
    ltc4282_setup (invalidFetConfig 100000 999) ⟨0, 0, 0, 0, 0, 0, 0⟩ =
      (-22, ⟨⟨0, 0, 0, 0, 0, 0, 0⟩, 1000, 2, 16640, false, 0, 0⟩) ∧
    ltc4282_setup (invalidGpioConfig 100000 5) ⟨0, 0, 0, 0, 0, 0, 0⟩ =
      (0, ⟨⟨0, 0, 0, 0, 0, 0, 0⟩, 1000, 2, 16640, false, 0, 0⟩) :=
  ⟨ltc4282_setup_validation.1 ⟨0, 0, 0, 0, 0, 0, 0⟩ 100000 7 (by decide),
   ltc4282_setup_validation.2.1 ⟨0, 0, 0, 0, 0, 0, 0⟩ 100000 1 (by decide),
   ltc4282_setup_validation.2.2.1 ⟨0, 0, 0, 0, 0, 0, 0⟩ 100000 9 (by decide),
   ltc4282_setup_validation.2.2.2.1 ⟨0, 0, 0, 0, 0, 0, 0⟩ 100000 9 (by decide),
   ltc4282_setup_validation.2.2.2.2.1 ⟨0, 0, 0, 0, 0, 0, 0⟩ 100000 999 (by decide),
   ltc4282_setup_validation.2.2.2.2.2 ⟨0, 0, 0, 0, 0, 0, 0⟩ 100000 5 (by decide)⟩

/-- C6 counterexample: a failed configuration run (valid vin-mode, then
invalid current-limit) returns `-EINVAL` but leaves the register state
changed, and an invalid GPIO function aborts with status 0 rather than a
validation error. -/
theorem ltc4282_setup_partial_config :
    (ltc4282_setup (invalidIlimConfig 100000 1) ⟨0, 0, 0, 0, 0, 0, 0⟩).1 = -22 ∧
    (ltc4282_setup (invalidIlimConfig 100000 1) ⟨0, 0, 0, 0, 0, 0, 0⟩).2.regs ≠
      (⟨0, 0, 0, 0, 0, 0, 0⟩ : LtcRegs) ∧
    (ltc4282_setup (invalidGpioConfig 100000 5) ⟨0, 0, 0, 0, 0, 0, 0⟩).1 = 0 := by
  decide
